import Mathlib

/-!
Verification development for the glow_glyph text renderer.

The development shallowly embeds the rendering backend dispatcher and GPU atlas
synchronization protocol of src/lib.rs: the GlyphBrush facade (a tagged union over
a Core and a Compatibility backend), its construction-time capability probe, the
cache sync driver process_queued with its resize retry loop, the three draw
variants and the orthographic projection helper.

External collaborators are modelled at their interface boundary: the cache engine
(the glyph_brush crate) is represented by its texture dimensions together with an
oracle script of processing-step answers, and machine integers are represented by
natural numbers with explicit reduction modulo 65536 where the source narrows to
u16.  The backend pipeline implementations, the builder and the scissor region
type live in repository modules that are not among the provided sources; those
are modelled from the spec and are marked as such in their doc comments.
-/

namespace GlowGlyph

/-- Texture dimensions in texels, a width and height pair, as returned by the
cache engine's texture_dimensions and carried by the pipeline's atlas. -/
abbrev Dims := Nat × Nat

/-- The rectangle handed to the texture-update callback by the cache engine:
glyph_brush passes a rectangle of u32 coordinates with min and max corners, whose
width and height are the corner differences. -/
structure CacheRect where
  minX : Nat
  minY : Nat
  maxX : Nat
  maxY : Nat
  deriving DecidableEq, Repr

/-- Width of a callback rectangle, the difference of the x corners. -/
def CacheRect.width (r : CacheRect) : Nat := r.maxX - r.minX

/-- Height of a callback rectangle, the difference of the y corners. -/
def CacheRect.height (r : CacheRect) : Nat := r.maxY - r.minY

/-- Modelled from the spec: the scissor Region value type lives in the repository
module region.rs, which is not among the provided sources; the spec describes it
as a rectangle restricting the draw call's visible output, carried per draw
invocation and not persisted. -/
structure Region where
  x : Nat
  y : Nat
  width : Nat
  height : Nat
  deriving DecidableEq, Repr

/-- GPU context API version as reported by the external context collaborator;
only the major component is inspected by GlyphBrush construction. -/
structure Version where
  major : Nat
  minor : Nat
  deriving DecidableEq, Repr

/-- Modelled from the spec: the backend pipeline implementations, pipeline/core.rs
and pipeline/compatibility.rs, are not among the provided sources.  Per the spec a
pipeline owns the GPU atlas texture with its dimensions, answers the maximum
texture size as a pure query of the GPU context, and keeps the vertex buffer
contents last uploaded wholesale.  Both variants expose this identical contract;
V is the variant's per-glyph vertex representation. -/
structure Pipeline (V : Type) where
  atlasDims : Dims
  maxTextureSize : Nat
  uploaded : List V
  deriving DecidableEq, Repr

/-- Modelled from the spec: pipeline creation allocates the atlas texture at the
given dimensions with empty vertex storage; the maximum texture size is a
property of the GPU context, passed here as a parameter. -/
def Pipeline.new (V : Type) (maxTextureSize : Nat) (width height : Nat) :
    Pipeline V :=
  { atlasDims := (width, height), maxTextureSize := maxTextureSize,
    uploaded := [] }

/-- Modelled from the spec: the GPU-imposed upper bound on any texture axis, a
pure query with no side effects. -/
def Pipeline.get_max_texture_size {V : Type} (p : Pipeline V) : Nat :=
  p.maxTextureSize

/-- Modelled from the spec: growing the atlas reallocates the atlas texture to
the new dimensions. -/
def Pipeline.increase_cache_size {V : Type} (p : Pipeline V) (w h : Nat) :
    Pipeline V :=
  { p with atlasDims := (w, h) }

/-- Modelled from the spec: uploading replaces the GPU vertex buffer contents
with the given batch. -/
def Pipeline.upload {V : Type} (p : Pipeline V) (verts : List V) : Pipeline V :=
  { p with uploaded := verts }

/-- The action returned by the cache engine's processing step: Draw carries the
positioned glyphs, each of which the engine runs through the caller-supplied
vertex conversion; ReDraw carries nothing. -/
inductive BrushAction (G : Type) where
  | draw (glyphs : List G)
  | reDraw
  deriving DecidableEq

/-- Oracle describing one draw cycle's worth of cache engine behaviour: the
engine answers each process_queued call in turn with finitely many
TextureTooSmall failures, each recording the atlas patches applied through the
callback during that call and the error's suggested dimensions, followed by one
successful call with its patches and its action. -/
structure Script (G : Type) where
  failures : List (List CacheRect × Dims)
  finalPatches : List CacheRect
  finalAction : BrushAction G
  deriving DecidableEq

/-- One observable operation issued by the cache sync driver: an atlas patch
forwarded to pipeline update_cache with offset and size already narrowed to u16,
a warning-level log record of an atlas resize carrying the old and new
dimensions, a pipeline increase_cache_size call, a cache engine resize_texture
call, or a pipeline vertex upload. -/
inductive Op (V : Type) where
  | updateCache (offset : Nat × Nat) (size : Nat × Nat)
  | warnResize (old : Dims) (new : Dims)
  | increaseCacheSize (dims : Dims)
  | resizeTexture (dims : Dims)
  | upload (verts : List V)
  deriving DecidableEq

/-- Whether an operation is a vertex upload. -/
def Op.isUpload {V : Type} : Op V → Bool
  | .upload _ => true
  | _ => false

/-- Whether an operation is a pipeline atlas grow. -/
def Op.isIncrease {V : Type} : Op V → Bool
  | .increaseCacheSize _ => true
  | _ => false

/-- Whether an operation is a cache engine texture resize. -/
def Op.isResizeTexture {V : Type} : Op V → Bool
  | .resizeTexture _ => true
  | _ => false

/-- Whether an operation is a warning log record. -/
def Op.isWarn {V : Type} : Op V → Bool
  | .warnResize _ _ => true
  | _ => false

/-- The old and new dimensions recorded by a warning log record, if any. -/
def Op.warnEvent {V : Type} : Op V → Option (Dims × Dims)
  | .warnResize o n => some (o, n)
  | _ => none

/-- The shape of an operation: the vertex payload of an upload is erased to its
multiplicity, every other operation is kept with all its arguments. -/
def Op.shape {V : Type} : Op V → Op Unit
  | .updateCache o s => .updateCache o s
  | .warnResize o n => .warnResize o n
  | .increaseCacheSize d => .increaseCacheSize d
  | .resizeTexture d => .resizeTexture d
  | .upload verts => .upload (verts.map fun _ => ())

/-- The texture-update callback installed by the Compatibility branch of
process_queued: it narrows the rectangle's min corner and its extent to u16,
that is reduces them modulo 65536, and forwards them to pipeline update_cache. -/
def atlasPatchCompatibility {V : Type} (r : CacheRect) : Op V :=
  Op.updateCache (r.minX % 65536, r.minY % 65536)
    (r.width % 65536, r.height % 65536)

/-- The texture-update callback installed by the Core branch of process_queued:
it narrows the rectangle's min corner and its extent to u16, that is reduces
them modulo 65536, and forwards them to pipeline update_cache. -/
def atlasPatchCore {V : Type} (r : CacheRect) : Op V :=
  Op.updateCache (r.minX % 65536, r.minY % 65536)
    (r.width % 65536, r.height % 65536)

/-- The resize-target computation of process_queued: if the suggested dimensions
exceed the maximum texture size on either axis and the current texture
dimensions are below the maximum on either axis, clamp the target to the maximum
on both axes; otherwise use the suggestion unmodified. -/
def newDims (suggested : Dims) (maxImageSize : Nat) (texDims : Dims) : Dims :=
  if (suggested.1 > maxImageSize ∨ suggested.2 > maxImageSize) ∧
      (texDims.1 < maxImageSize ∨ texDims.2 < maxImageSize) then
    (maxImageSize, maxImageSize)
  else
    suggested

/-- The resize retry loop of the Compatibility branch of process_queued, one
step per TextureTooSmall answer of the cache engine: the patches applied
through the callback during the failing call are forwarded first, then the
resize target is computed from the suggestion, the pipeline's maximum texture
size and the engine's current texture dimensions, a warning is logged when
warn-level logging is enabled, the pipeline cache is grown and the engine
texture resized to the same target, and the loop re-invokes the processing step
on the remaining failures.  Returns the operations issued, the pipeline state
and the engine texture dimensions. -/
def resizeLoopCompatibility {V : Type} (logEnabled : Bool) :
    Pipeline V → Dims → List (List CacheRect × Dims) →
      List (Op V) × Pipeline V × Dims
  | p, texDims, [] => ([], p, texDims)
  | p, texDims, (patches, suggested) :: rest =>
    let maxImageSize := p.get_max_texture_size
    let nd :=
      if (suggested.1 > maxImageSize ∨ suggested.2 > maxImageSize) ∧
          (texDims.1 < maxImageSize ∨ texDims.2 < maxImageSize) then
        (maxImageSize, maxImageSize)
      else
        suggested
    let warnOps : List (Op V) :=
      if logEnabled then [Op.warnResize texDims nd] else []
    let p1 := p.increase_cache_size nd.1 nd.2
    let r := resizeLoopCompatibility logEnabled p1 nd rest
    (patches.map atlasPatchCompatibility ++ warnOps ++
        (Op.increaseCacheSize nd :: Op.resizeTexture nd :: r.1),
      r.2.1, r.2.2)

/-- The Compatibility branch of process_queued: run the resize retry loop over
the failure answers, then forward the successful call's patches, and finally
either upload the converted vertices of a Draw action or leave the vertex
buffer untouched for a ReDraw action. -/
def processQueuedCompatibility {G V : Type} (conv : G → V) (logEnabled : Bool)
    (p : Pipeline V) (texDims : Dims) (script : Script G) :
    List (Op V) × Pipeline V × Dims :=
  let r := resizeLoopCompatibility logEnabled p texDims script.failures
  let succOps := script.finalPatches.map atlasPatchCompatibility
  match script.finalAction with
  | .draw glyphs =>
    let verts := glyphs.map conv
    (r.1 ++ succOps ++ [Op.upload verts], (r.2.1).upload verts, r.2.2)
  | .reDraw => (r.1 ++ succOps, r.2.1, r.2.2)

/-- The resize retry loop of the Core branch of process_queued, a second
transcription mirroring the duplicated loop body of the source: patches of the
failing call first, then the resize target from the suggestion, the pipeline's
maximum texture size and the current texture dimensions, a warning when
warn-level logging is enabled, the pipeline grow and the engine resize to the
same target, then the next processing step. -/
def resizeLoopCore {V : Type} (logEnabled : Bool) :
    Pipeline V → Dims → List (List CacheRect × Dims) →
      List (Op V) × Pipeline V × Dims
  | p, texDims, [] => ([], p, texDims)
  | p, texDims, (patches, suggested) :: rest =>
    let maxImageSize := p.get_max_texture_size
    let nd :=
      if (suggested.1 > maxImageSize ∨ suggested.2 > maxImageSize) ∧
          (texDims.1 < maxImageSize ∨ texDims.2 < maxImageSize) then
        (maxImageSize, maxImageSize)
      else
        suggested
    let warnOps : List (Op V) :=
      if logEnabled then [Op.warnResize texDims nd] else []
    let p1 := p.increase_cache_size nd.1 nd.2
    let r := resizeLoopCore logEnabled p1 nd rest
    (patches.map atlasPatchCore ++ warnOps ++
        (Op.increaseCacheSize nd :: Op.resizeTexture nd :: r.1),
      r.2.1, r.2.2)

/-- The Core branch of process_queued, a second transcription mirroring the
duplicated match arm of the source: the resize retry loop over the failure
answers, then the successful call's patches, then the upload of the converted
vertices of a Draw action, or nothing for a ReDraw action. -/
def processQueuedCore {G V : Type} (conv : G → V) (logEnabled : Bool)
    (p : Pipeline V) (texDims : Dims) (script : Script G) :
    List (Op V) × Pipeline V × Dims :=
  let r := resizeLoopCore logEnabled p texDims script.failures
  let succOps := script.finalPatches.map atlasPatchCore
  match script.finalAction with
  | .draw glyphs =>
    let verts := glyphs.map conv
    (r.1 ++ succOps ++ [Op.upload verts], (r.2.1).upload verts, r.2.2)
  | .reDraw => (r.1 ++ succOps, r.2.1, r.2.2)

/-- The expected resize sequence of a failure script: each entry pairs the
engine texture dimensions before a resize with the computed resize target, the
target becoming the current dimensions for the next failure. -/
def resizePairs (maxImageSize : Nat) :
    Dims → List (List CacheRect × Dims) → List (Dims × Dims)
  | _, [] => []
  | texDims, (_, suggested) :: rest =>
    let nd := newDims suggested maxImageSize texDims
    (texDims, nd) :: resizePairs maxImageSize nd rest

/-- The expected sequence of resize targets of a failure script. -/
def resizeTargets (maxImageSize : Nat) (texDims : Dims)
    (failures : List (List CacheRect × Dims)) : List Dims :=
  (resizePairs maxImageSize texDims failures).map fun pr => pr.2

/-- The subsequence of pipeline grows and engine resizes of an operation
trace. -/
def resizeEvents {V : Type} (ops : List (Op V)) : List (Op V) :=
  ops.filter fun o => o.isIncrease || o.isResizeTexture

/-- The operation sequence consisting of, for each target in turn, one pipeline
grow immediately followed by one engine resize to the same dimensions. -/
def resizeOpPairs {V : Type} : List Dims → List (Op V)
  | [] => []
  | d :: ds => Op.increaseCacheSize d :: Op.resizeTexture d :: resizeOpPairs ds

/-- Interface model of the external cache engine collaborator, the glyph_brush
crate: its texture dimensions, the queue of pending sections, the queues of
pre-positioned glyph batches and of sections retained in the cache, and the font
list.  S is the section type, Fnt the font type, G the positioned glyph type. -/
structure EngineModel (S Fnt G : Type) where
  texDims : Dims
  pending : List S
  prePositioned : List (List G)
  kept : List S
  fonts : List Fnt

/-- The capability tier selected at construction. -/
inductive Variant where
  | core
  | compatibility
  deriving DecidableEq, Repr

/-- The facade: a tagged union pairing one backend pipeline with one cache
engine instance, Core or Compatibility, as in the source enum GlyphBrush.  V4 is
the Compatibility vertex representation, a four vertex quad in the source, and
VI the Core vertex representation, an instance in the source. -/
inductive GlyphBrush (S Fnt G V4 VI : Type) where
  | core (pipeline : Pipeline VI) (glyph_brush : EngineModel S Fnt G)
  | compatibility (pipeline : Pipeline V4) (glyph_brush : EngineModel S Fnt G)

/-- The capability tier of the active variant. -/
def GlyphBrush.variant {S Fnt G V4 VI : Type} :
    GlyphBrush S Fnt G V4 VI → Variant
  | .core _ _ => Variant.core
  | .compatibility _ _ => Variant.compatibility

/-- The atlas texture dimensions owned by the active backend pipeline. -/
def GlyphBrush.atlasDims {S Fnt G V4 VI : Type} :
    GlyphBrush S Fnt G V4 VI → Dims
  | .core p _ => p.atlasDims
  | .compatibility p _ => p.atlasDims

/-- The texture dimensions of the active cache engine instance. -/
def GlyphBrush.texture_dimensions {S Fnt G V4 VI : Type} :
    GlyphBrush S Fnt G V4 VI → Dims
  | .core _ e => e.texDims
  | .compatibility _ e => e.texDims

/-- GlyphBrush construction: query the context version; a major version of at
least 3 selects the Core variant, anything else the Compatibility variant.  In
both branches the cache engine is built first and the pipeline is created with
the engine's initial texture dimensions. -/
def GlyphBrush.new (S Fnt G V4 VI : Type) (gl_version : Version)
    (gl_maxTextureSize : Nat) (builderDims : Dims) (builderFonts : List Fnt) :
    GlyphBrush S Fnt G V4 VI :=
  if gl_version.major ≥ 3 then
    let glyph_brush : EngineModel S Fnt G :=
      ⟨builderDims, [], [], [], builderFonts⟩
    .core
      (Pipeline.new VI gl_maxTextureSize glyph_brush.texDims.1
        glyph_brush.texDims.2)
      glyph_brush
  else
    let glyph_brush : EngineModel S Fnt G :=
      ⟨builderDims, [], [], [], builderFonts⟩
    .compatibility
      (Pipeline.new V4 gl_maxTextureSize glyph_brush.texDims.1
        glyph_brush.texDims.2)
      glyph_brush

/-- The queue method: both variants forward the section to their cache engine
instance, which enqueues it. -/
def GlyphBrush.queue {S Fnt G V4 VI : Type} (s : S) :
    GlyphBrush S Fnt G V4 VI → GlyphBrush S Fnt G V4 VI
  | .compatibility p e => .compatibility p { e with pending := e.pending ++ [s] }
  | .core p e => .core p { e with pending := e.pending ++ [s] }

/-- The queue_custom_layout method: both variants forward to their cache engine
instance, which enqueues the section under the custom positioner. -/
def GlyphBrush.queue_custom_layout {S Fnt G V4 VI : Type} (s : S) :
    GlyphBrush S Fnt G V4 VI → GlyphBrush S Fnt G V4 VI
  | .compatibility p e => .compatibility p { e with pending := e.pending ++ [s] }
  | .core p e => .core p { e with pending := e.pending ++ [s] }

/-- The queue_pre_positioned method: both variants forward the glyph batch to
their cache engine instance. -/
def GlyphBrush.queue_pre_positioned {S Fnt G V4 VI : Type} (glyphs : List G) :
    GlyphBrush S Fnt G V4 VI → GlyphBrush S Fnt G V4 VI
  | .compatibility p e =>
    .compatibility p { e with prePositioned := e.prePositioned ++ [glyphs] }
  | .core p e => .core p { e with prePositioned := e.prePositioned ++ [glyphs] }

/-- The keep_cached method: both variants forward to their cache engine
instance, which retains the section as if drawn in the last frame. -/
def GlyphBrush.keep_cached {S Fnt G V4 VI : Type} (s : S) :
    GlyphBrush S Fnt G V4 VI → GlyphBrush S Fnt G V4 VI
  | .compatibility p e => .compatibility p { e with kept := e.kept ++ [s] }
  | .core p e => .core p { e with kept := e.kept ++ [s] }

/-- The keep_cached_custom_layout method: both variants forward to their cache
engine instance. -/
def GlyphBrush.keep_cached_custom_layout {S Fnt G V4 VI : Type} (s : S) :
    GlyphBrush S Fnt G V4 VI → GlyphBrush S Fnt G V4 VI
  | .compatibility p e => .compatibility p { e with kept := e.kept ++ [s] }
  | .core p e => .core p { e with kept := e.kept ++ [s] }

/-- The fonts method: both variants read their cache engine's font list. -/
def GlyphBrush.fonts {S Fnt G V4 VI : Type} :
    GlyphBrush S Fnt G V4 VI → List Fnt
  | .compatibility _ e => e.fonts
  | .core _ e => e.fonts

/-- The add_font method: both variants forward to their cache engine instance
and return the new font's id, its index in the font list. -/
def GlyphBrush.add_font {S Fnt G V4 VI : Type} (font : Fnt) :
    GlyphBrush S Fnt G V4 VI → GlyphBrush S Fnt G V4 VI × Nat
  | .compatibility p e =>
    (.compatibility p { e with fonts := e.fonts ++ [font] }, e.fonts.length)
  | .core p e =>
    (.core p { e with fonts := e.fonts ++ [font] }, e.fonts.length)

/-- The cache sync driver at the facade level: match on the active variant and
run that variant's process_queued against the engine answer script, installing
the returned pipeline state and engine texture dimensions.  conv4 and convI are
the two variants' per-glyph vertex conversions. -/
def GlyphBrush.process_queued {S Fnt G V4 VI : Type} (conv4 : G → V4)
    (convI : G → VI) (logEnabled : Bool) (script : Script G) :
    GlyphBrush S Fnt G V4 VI → GlyphBrush S Fnt G V4 VI
  | .compatibility p e =>
    let r := processQueuedCompatibility conv4 logEnabled p e.texDims script
    .compatibility r.2.1 { e with texDims := r.2.2 }
  | .core p e =>
    let r := processQueuedCore convI logEnabled p e.texDims script
    .core r.2.1 { e with texDims := r.2.2 }

/-- The draw call finally issued by the active pipeline: the transform uniform
and the optional scissor region.  Pipeline draw itself only writes the render
target, so it changes no modelled state. -/
structure DrawCall where
  transform : List ℚ
  scissor : Option Region
  deriving DecidableEq, Repr

/-- The draw_queued_with_transform method: run the cache sync driver, then ask
the active pipeline to draw with the given transform and no scissor region, and
return success. -/
def GlyphBrush.draw_queued_with_transform {S Fnt G V4 VI : Type}
    (conv4 : G → V4) (convI : G → VI) (logEnabled : Bool) (script : Script G)
    (transform : List ℚ) (brush : GlyphBrush S Fnt G V4 VI) :
    GlyphBrush S Fnt G V4 VI × DrawCall × Except String Unit :=
  let brush1 := brush.process_queued conv4 convI logEnabled script
  (brush1, ⟨transform, none⟩, Except.ok ())

/-- The draw_queued_with_transform_and_scissoring method: run the cache sync
driver, then ask the active pipeline to draw with the given transform and the
given scissor region, and return success. -/
def GlyphBrush.draw_queued_with_transform_and_scissoring {S Fnt G V4 VI : Type}
    (conv4 : G → V4) (convI : G → VI) (logEnabled : Bool) (script : Script G)
    (transform : List ℚ) (region : Region)
    (brush : GlyphBrush S Fnt G V4 VI) :
    GlyphBrush S Fnt G V4 VI × DrawCall × Except String Unit :=
  let brush1 := brush.process_queued conv4 convI logEnabled script
  (brush1, ⟨transform, some region⟩, Except.ok ())

/-- The orthographic projection helper: the row-major transform matrix scaling
x by two over the width, y by minus two over the height, and translating by
minus one and one.  The source computes in f32; the embedding uses exact
rationals over the same expressions. -/
def orthographic_projection (width height : Nat) : List ℚ :=
  [2 / (width : ℚ), 0, 0, 0,
   0, -2 / (height : ℚ), 0, 0,
   0, 0, 1, 0,
   -1, 1, 0, 1]

/-- The draw_queued method: draw with the orthographic projection derived from
the target dimensions. -/
def GlyphBrush.draw_queued {S Fnt G V4 VI : Type} (conv4 : G → V4)
    (convI : G → VI) (logEnabled : Bool) (script : Script G)
    (target_width target_height : Nat) (brush : GlyphBrush S Fnt G V4 VI) :
    GlyphBrush S Fnt G V4 VI × DrawCall × Except String Unit :=
  brush.draw_queued_with_transform conv4 convI logEnabled script
    (orthographic_projection target_width target_height)

/-- One public operation on the facade, with the engine answer script each draw
variant needs. -/
inductive Cmd (S Fnt G : Type) where
  | queue (s : S)
  | queue_custom_layout (s : S)
  | queue_pre_positioned (glyphs : List G)
  | keep_cached (s : S)
  | keep_cached_custom_layout (s : S)
  | add_font (font : Fnt)
  | fonts
  | draw_queued (width height : Nat) (script : Script G)
  | draw_queued_with_transform (transform : List ℚ) (script : Script G)
  | draw_queued_with_transform_and_scissoring (transform : List ℚ)
      (region : Region) (script : Script G)

/-- One public operation applied to the facade state. -/
def GlyphBrush.step {S Fnt G V4 VI : Type} (conv4 : G → V4) (convI : G → VI)
    (logEnabled : Bool) (brush : GlyphBrush S Fnt G V4 VI) :
    Cmd S Fnt G → GlyphBrush S Fnt G V4 VI
  | .queue s => brush.queue s
  | .queue_custom_layout s => brush.queue_custom_layout s
  | .queue_pre_positioned glyphs => brush.queue_pre_positioned glyphs
  | .keep_cached s => brush.keep_cached s
  | .keep_cached_custom_layout s => brush.keep_cached_custom_layout s
  | .add_font font => (brush.add_font font).1
  | .fonts => brush
  | .draw_queued w h script =>
    (brush.draw_queued conv4 convI logEnabled script w h).1
  | .draw_queued_with_transform t script =>
    (brush.draw_queued_with_transform conv4 convI logEnabled script t).1
  | .draw_queued_with_transform_and_scissoring t region script =>
    (brush.draw_queued_with_transform_and_scissoring conv4 convI logEnabled
      script t region).1

/-- A sequence of public operations applied to the facade state in order. -/
def GlyphBrush.runCmds {S Fnt G V4 VI : Type} (conv4 : G → V4) (convI : G → VI)
    (logEnabled : Bool) :
    GlyphBrush S Fnt G V4 VI → List (Cmd S Fnt G) → GlyphBrush S Fnt G V4 VI
  | brush, [] => brush
  | brush, c :: cs =>
    GlyphBrush.runCmds conv4 convI logEnabled
      (brush.step conv4 convI logEnabled c) cs

/-! Helper lemmas about the resize retry loop. -/

@[simp] theorem Op.isUpload_updateCache {V : Type} (o s : Nat × Nat) :
    (Op.updateCache o s : Op V).isUpload = false := rfl

@[simp] theorem Op.isUpload_warnResize {V : Type} (o n : Dims) :
    (Op.warnResize o n : Op V).isUpload = false := rfl

@[simp] theorem Op.isUpload_increaseCacheSize {V : Type} (d : Dims) :
    (Op.increaseCacheSize d : Op V).isUpload = false := rfl

@[simp] theorem Op.isUpload_resizeTexture {V : Type} (d : Dims) :
    (Op.resizeTexture d : Op V).isUpload = false := rfl

@[simp] theorem Op.isUpload_upload {V : Type} (verts : List V) :
    (Op.upload verts).isUpload = true := rfl

@[simp] theorem Op.isIncrease_updateCache {V : Type} (o s : Nat × Nat) :
    (Op.updateCache o s : Op V).isIncrease = false := rfl

@[simp] theorem Op.isIncrease_warnResize {V : Type} (o n : Dims) :
    (Op.warnResize o n : Op V).isIncrease = false := rfl

@[simp] theorem Op.isIncrease_increaseCacheSize {V : Type} (d : Dims) :
    (Op.increaseCacheSize d : Op V).isIncrease = true := rfl

@[simp] theorem Op.isIncrease_resizeTexture {V : Type} (d : Dims) :
    (Op.resizeTexture d : Op V).isIncrease = false := rfl

@[simp] theorem Op.isIncrease_upload {V : Type} (verts : List V) :
    (Op.upload verts).isIncrease = false := rfl

@[simp] theorem Op.isResizeTexture_updateCache {V : Type} (o s : Nat × Nat) :
    (Op.updateCache o s : Op V).isResizeTexture = false := rfl

@[simp] theorem Op.isResizeTexture_warnResize {V : Type} (o n : Dims) :
    (Op.warnResize o n : Op V).isResizeTexture = false := rfl

@[simp] theorem Op.isResizeTexture_increaseCacheSize {V : Type} (d : Dims) :
    (Op.increaseCacheSize d : Op V).isResizeTexture = false := rfl

@[simp] theorem Op.isResizeTexture_resizeTexture {V : Type} (d : Dims) :
    (Op.resizeTexture d : Op V).isResizeTexture = true := rfl

@[simp] theorem Op.isResizeTexture_upload {V : Type} (verts : List V) :
    (Op.upload verts).isResizeTexture = false := rfl

@[simp] theorem Op.isWarn_updateCache {V : Type} (o s : Nat × Nat) :
    (Op.updateCache o s : Op V).isWarn = false := rfl

@[simp] theorem Op.isWarn_warnResize {V : Type} (o n : Dims) :
    (Op.warnResize o n : Op V).isWarn = true := rfl

@[simp] theorem Op.isWarn_increaseCacheSize {V : Type} (d : Dims) :
    (Op.increaseCacheSize d : Op V).isWarn = false := rfl

@[simp] theorem Op.isWarn_resizeTexture {V : Type} (d : Dims) :
    (Op.resizeTexture d : Op V).isWarn = false := rfl

@[simp] theorem Op.isWarn_upload {V : Type} (verts : List V) :
    (Op.upload verts).isWarn = false := rfl

@[simp] theorem Op.warnEvent_updateCache {V : Type} (o s : Nat × Nat) :
    (Op.updateCache o s : Op V).warnEvent = none := rfl

@[simp] theorem Op.warnEvent_warnResize {V : Type} (o n : Dims) :
    (Op.warnResize o n : Op V).warnEvent = some (o, n) := rfl

@[simp] theorem Op.warnEvent_increaseCacheSize {V : Type} (d : Dims) :
    (Op.increaseCacheSize d : Op V).warnEvent = none := rfl

@[simp] theorem Op.warnEvent_resizeTexture {V : Type} (d : Dims) :
    (Op.resizeTexture d : Op V).warnEvent = none := rfl

@[simp] theorem Op.warnEvent_upload {V : Type} (verts : List V) :
    (Op.upload verts).warnEvent = none := rfl

theorem atlasPatch_eq {V : Type} (r : CacheRect) :
    (atlasPatchCompatibility r : Op V) = atlasPatchCore r := rfl

theorem resizeLoop_eq {V : Type} (logEnabled : Bool)
    (fs : List (List CacheRect × Dims)) : ∀ (p : Pipeline V) (texDims : Dims),
    resizeLoopCompatibility logEnabled p texDims fs =
      resizeLoopCore logEnabled p texDims fs := by
  induction fs with
  | nil => intro p texDims; rfl
  | cons head rest ih =>
    intro p texDims
    obtain ⟨patches, suggested⟩ := head
    simp only [resizeLoopCompatibility, resizeLoopCore, ih]
    rfl

theorem processQueued_eq {G V : Type} (conv : G → V) (logEnabled : Bool)
    (p : Pipeline V) (texDims : Dims) (script : Script G) :
    processQueuedCompatibility conv logEnabled p texDims script =
      processQueuedCore conv logEnabled p texDims script := by
  obtain ⟨fs, fps, act⟩ := script
  cases act <;>
      simp only [processQueuedCompatibility, processQueuedCore,
        resizeLoop_eq] <;>
    rfl

theorem resizeLoopCompatibility_uploaded {V : Type} (logEnabled : Bool)
    (fs : List (List CacheRect × Dims)) : ∀ (p : Pipeline V) (texDims : Dims),
    (resizeLoopCompatibility logEnabled p texDims fs).2.1.uploaded =
      p.uploaded := by
  induction fs with
  | nil => intro p texDims; rfl
  | cons head rest ih =>
    intro p texDims
    obtain ⟨patches, suggested⟩ := head
    simp only [resizeLoopCompatibility]
    rw [ih]
    rfl

theorem resizeLoopCompatibility_maxTex {V : Type} (logEnabled : Bool)
    (fs : List (List CacheRect × Dims)) : ∀ (p : Pipeline V) (texDims : Dims),
    (resizeLoopCompatibility logEnabled p texDims fs).2.1.maxTextureSize =
      p.maxTextureSize := by
  induction fs with
  | nil => intro p texDims; rfl
  | cons head rest ih =>
    intro p texDims
    obtain ⟨patches, suggested⟩ := head
    simp only [resizeLoopCompatibility]
    rw [ih]
    rfl

theorem resizeLoopCompatibility_sync {V : Type} (logEnabled : Bool)
    (fs : List (List CacheRect × Dims)) : ∀ (p : Pipeline V) (texDims : Dims),
    p.atlasDims = texDims →
      (resizeLoopCompatibility logEnabled p texDims fs).2.1.atlasDims =
        (resizeLoopCompatibility logEnabled p texDims fs).2.2 := by
  induction fs with
  | nil => intro p texDims h; exact h
  | cons head rest ih =>
    intro p texDims _
    obtain ⟨patches, suggested⟩ := head
    simp only [resizeLoopCompatibility]
    exact ih _ _ rfl

theorem resizeLoopCompatibility_filter_upload {V : Type} (logEnabled : Bool)
    (fs : List (List CacheRect × Dims)) : ∀ (p : Pipeline V) (texDims : Dims),
    ((resizeLoopCompatibility logEnabled p texDims fs).1).filter Op.isUpload =
      [] := by
  induction fs with
  | nil => intro p texDims; rfl
  | cons head rest ih =>
    intro p texDims
    obtain ⟨patches, suggested⟩ := head
    cases logEnabled <;>
      simp [resizeLoopCompatibility, List.filter_append, ih,
        atlasPatchCompatibility, Op.isUpload, List.filter_map, Function.comp]

theorem filter_map_eq_nil {α β : Type} (f : α → β) (pred : β → Bool)
    (h : ∀ a, pred (f a) = false) (l : List α) :
    (l.map f).filter pred = [] := by
  induction l with
  | nil => rfl
  | cons a l ih => simp [List.filter_cons, h, ih]

theorem filter_map_eq_self {α β : Type} (f : α → β) (pred : β → Bool)
    (h : ∀ a, pred (f a) = true) (l : List α) :
    (l.map f).filter pred = l.map f := by
  induction l with
  | nil => rfl
  | cons a l ih => simp [List.filter_cons, h, ih]

theorem filterMap_map_eq_nil {α β γ : Type} (f : α → β) (g : β → Option γ)
    (h : ∀ a, g (f a) = none) (l : List α) :
    (l.map f).filterMap g = [] := by
  induction l with
  | nil => rfl
  | cons a l ih => simp [List.filterMap_cons, h, ih]

theorem countP_map_eq_zero {α β : Type} (f : α → β) (pred : β → Bool)
    (h : ∀ a, pred (f a) = false) (l : List α) :
    (l.map f).countP pred = 0 := by
  induction l with
  | nil => rfl
  | cons a l ih => simp [List.countP_cons, h, ih]

theorem resizeLoopCompatibility_resizeEvents {V : Type} (logEnabled : Bool)
    (fs : List (List CacheRect × Dims)) : ∀ (p : Pipeline V) (texDims : Dims),
    resizeEvents (resizeLoopCompatibility logEnabled p texDims fs).1 =
      resizeOpPairs (resizeTargets p.maxTextureSize texDims fs) := by
  induction fs with
  | nil => intro p texDims; rfl
  | cons head rest ih =>
    intro p texDims
    obtain ⟨patches, suggested⟩ := head
    have h1 : (patches.map (atlasPatchCompatibility : CacheRect → Op V)).filter
        (fun o => o.isIncrease || o.isResizeTexture) = [] :=
      filter_map_eq_nil _ _ (fun r => rfl) patches
    simp only [resizeEvents] at ih ⊢
    cases logEnabled <;>
      simp [resizeLoopCompatibility, List.filter_append, h1, List.filter_cons,
        ih, resizeTargets, resizePairs, resizeOpPairs, newDims,
        Pipeline.get_max_texture_size, Pipeline.increase_cache_size]

theorem resizeLoopCompatibility_countP_inc {V : Type} (logEnabled : Bool)
    (fs : List (List CacheRect × Dims)) : ∀ (p : Pipeline V) (texDims : Dims),
    ((resizeLoopCompatibility logEnabled p texDims fs).1).countP Op.isIncrease =
      fs.length := by
  induction fs with
  | nil => intro p texDims; rfl
  | cons head rest ih =>
    intro p texDims
    obtain ⟨patches, suggested⟩ := head
    have h1 : (patches.map (atlasPatchCompatibility : CacheRect → Op V)).countP
        Op.isIncrease = 0 :=
      countP_map_eq_zero _ _ (fun r => rfl) patches
    cases logEnabled <;>
      simp [resizeLoopCompatibility, List.countP_append, List.countP_cons, h1,
        ih]

theorem resizeLoopCompatibility_warnEvents {V : Type}
    (fs : List (List CacheRect × Dims)) : ∀ (p : Pipeline V) (texDims : Dims),
    ((resizeLoopCompatibility true p texDims fs).1).filterMap
        (fun o : Op V => o.warnEvent) =
      resizePairs p.maxTextureSize texDims fs := by
  induction fs with
  | nil => intro p texDims; rfl
  | cons head rest ih =>
    intro p texDims
    obtain ⟨patches, suggested⟩ := head
    have h1 : (patches.map (atlasPatchCompatibility : CacheRect → Op V)).filterMap
        (fun o => o.warnEvent) = [] :=
      filterMap_map_eq_nil _ _ (fun r => rfl) patches
    simp [resizeLoopCompatibility, List.filterMap_append, h1,
      List.filterMap_cons, ih, resizePairs, newDims,
      Pipeline.get_max_texture_size, Pipeline.increase_cache_size]

theorem resizeLoopCompatibility_erase_warn {V : Type} (logEnabled : Bool)
    (fs : List (List CacheRect × Dims)) : ∀ (p : Pipeline V) (texDims : Dims),
    ((resizeLoopCompatibility logEnabled p texDims fs).1).filter
        (fun o : Op V => !o.isWarn) =
      (resizeLoopCompatibility false p texDims fs).1 := by
  induction fs with
  | nil => intro p texDims; rfl
  | cons head rest ih =>
    intro p texDims
    obtain ⟨patches, suggested⟩ := head
    have h1 : (patches.map (atlasPatchCompatibility : CacheRect → Op V)).filter
        (fun o => !o.isWarn) = patches.map atlasPatchCompatibility :=
      filter_map_eq_self _ _ (fun r => rfl) patches
    cases logEnabled <;>
      simp [resizeLoopCompatibility, List.filter_append, h1, List.filter_cons,
        ih]

theorem resizeLoopCompatibility_state_log {V : Type} (logEnabled : Bool)
    (fs : List (List CacheRect × Dims)) : ∀ (p : Pipeline V) (texDims : Dims),
    (resizeLoopCompatibility logEnabled p texDims fs).2 =
      (resizeLoopCompatibility false p texDims fs).2 := by
  induction fs with
  | nil => intro p texDims; rfl
  | cons head rest ih =>
    intro p texDims
    obtain ⟨patches, suggested⟩ := head
    simp only [resizeLoopCompatibility]
    exact ih _ _

theorem resizeEvents_append {V : Type} (a b : List (Op V)) :
    resizeEvents (a ++ b) = resizeEvents a ++ resizeEvents b := by
  simp [resizeEvents, List.filter_append]

theorem resizeEvents_upload {V : Type} (verts : List V) :
    resizeEvents [Op.upload verts] = [] := rfl

theorem resizeEvents_patches {V : Type} (patches : List CacheRect) :
    resizeEvents (patches.map (atlasPatchCompatibility : CacheRect → Op V)) =
      [] :=
  filter_map_eq_nil _ _ (fun _ => rfl) patches

theorem processQueuedCompatibility_resizeEvents {G V : Type} (conv : G → V)
    (logEnabled : Bool) (p : Pipeline V) (texDims : Dims) (script : Script G) :
    resizeEvents (processQueuedCompatibility conv logEnabled p texDims
        script).1 =
      resizeOpPairs (resizeTargets p.maxTextureSize texDims script.failures)
    := by
  obtain ⟨fs, fps, act⟩ := script
  cases act <;>
    simp [processQueuedCompatibility, resizeEvents_append, resizeEvents_upload,
      resizeEvents_patches, resizeLoopCompatibility_resizeEvents]

theorem processQueuedCompatibility_countP_inc {G V : Type} (conv : G → V)
    (logEnabled : Bool) (p : Pipeline V) (texDims : Dims) (script : Script G) :
    ((processQueuedCompatibility conv logEnabled p texDims script).1).countP
        Op.isIncrease =
      script.failures.length := by
  obtain ⟨fs, fps, act⟩ := script
  have h1 : (fps.map (atlasPatchCompatibility : CacheRect → Op V)).countP
      Op.isIncrease = 0 :=
    countP_map_eq_zero _ _ (fun r => rfl) fps
  cases act <;>
    simp [processQueuedCompatibility, List.countP_append, List.countP_cons, h1,
      resizeLoopCompatibility_countP_inc]

theorem processQueuedCompatibility_warnEvents {G V : Type} (conv : G → V)
    (p : Pipeline V) (texDims : Dims) (script : Script G) :
    ((processQueuedCompatibility conv true p texDims script).1).filterMap
        (fun o : Op V => o.warnEvent) =
      resizePairs p.maxTextureSize texDims script.failures := by
  obtain ⟨fs, fps, act⟩ := script
  have h1 : (fps.map (atlasPatchCompatibility : CacheRect → Op V)).filterMap
      (fun o => o.warnEvent) = [] :=
    filterMap_map_eq_nil _ _ (fun r => rfl) fps
  cases act <;>
    simp [processQueuedCompatibility, List.filterMap_append, h1,
      List.filterMap_cons, resizeLoopCompatibility_warnEvents]

theorem processQueuedCompatibility_erase_warn {G V : Type} (conv : G → V)
    (logEnabled : Bool) (p : Pipeline V) (texDims : Dims) (script : Script G) :
    ((processQueuedCompatibility conv logEnabled p texDims script).1).filter
        (fun o : Op V => !o.isWarn) =
      (processQueuedCompatibility conv false p texDims script).1 := by
  obtain ⟨fs, fps, act⟩ := script
  have h1 : (fps.map (atlasPatchCompatibility : CacheRect → Op V)).filter
      (fun o => !o.isWarn) = fps.map atlasPatchCompatibility :=
    filter_map_eq_self _ _ (fun r => rfl) fps
  cases act <;>
    simp [processQueuedCompatibility, List.filter_append, h1, List.filter_cons,
      resizeLoopCompatibility_erase_warn, resizeLoopCompatibility_state_log]

theorem processQueuedCompatibility_state_log {G V : Type} (conv : G → V)
    (logEnabled : Bool) (p : Pipeline V) (texDims : Dims) (script : Script G) :
    (processQueuedCompatibility conv logEnabled p texDims script).2 =
      (processQueuedCompatibility conv false p texDims script).2 := by
  obtain ⟨fs, fps, act⟩ := script
  cases act <;>
    simp [processQueuedCompatibility, resizeLoopCompatibility_state_log]

theorem processQueuedCompatibility_sync {G V : Type} (conv : G → V)
    (logEnabled : Bool) (p : Pipeline V) (texDims : Dims) (script : Script G)
    (h : p.atlasDims = texDims) :
    (processQueuedCompatibility conv logEnabled p texDims script).2.1.atlasDims
      = (processQueuedCompatibility conv logEnabled p texDims script).2.2 := by
  obtain ⟨fs, fps, act⟩ := script
  cases act <;>
    simp [processQueuedCompatibility, Pipeline.upload,
      resizeLoopCompatibility_sync logEnabled fs p texDims h]

theorem resizePairs_length (maxImageSize : Nat)
    (fs : List (List CacheRect × Dims)) : ∀ (texDims : Dims),
    (resizePairs maxImageSize texDims fs).length = fs.length := by
  induction fs with
  | nil => intro texDims; rfl
  | cons head rest ih =>
    intro texDims
    obtain ⟨patches, suggested⟩ := head
    simp [resizePairs, ih]

@[simp] theorem Op.shape_updateCache {V : Type} (o s : Nat × Nat) :
    (Op.updateCache o s : Op V).shape = Op.updateCache o s := rfl

@[simp] theorem Op.shape_warnResize {V : Type} (o n : Dims) :
    (Op.warnResize o n : Op V).shape = Op.warnResize o n := rfl

@[simp] theorem Op.shape_increaseCacheSize {V : Type} (d : Dims) :
    (Op.increaseCacheSize d : Op V).shape = Op.increaseCacheSize d := rfl

@[simp] theorem Op.shape_resizeTexture {V : Type} (d : Dims) :
    (Op.resizeTexture d : Op V).shape = Op.resizeTexture d := rfl

@[simp] theorem Op.shape_upload {V : Type} (verts : List V) :
    (Op.upload verts).shape = Op.upload (verts.map fun _ => ()) := rfl

@[simp] theorem Op.shape_atlasPatchCompatibility {V : Type} (r : CacheRect) :
    Op.shape (atlasPatchCompatibility r : Op V) = atlasPatchCompatibility r :=
  rfl

@[simp] theorem Op.shape_atlasPatchCore {V : Type} (r : CacheRect) :
    Op.shape (atlasPatchCore r : Op V) = atlasPatchCore r := rfl

theorem resizeLoopCompatibility_shape {V1 V2 : Type} (logEnabled : Bool)
    (fs : List (List CacheRect × Dims)) :
    ∀ (maxTex : Nat) (d : Dims) (up1 : List V1) (up2 : List V2)
      (texDims : Dims),
    ((resizeLoopCompatibility logEnabled ⟨d, maxTex, up1⟩ texDims fs).1.map
        Op.shape =
      (resizeLoopCompatibility logEnabled ⟨d, maxTex, up2⟩ texDims fs).1.map
        Op.shape) ∧
    ((resizeLoopCompatibility logEnabled ⟨d, maxTex, up1⟩ texDims
        fs).2.1.atlasDims =
      (resizeLoopCompatibility logEnabled ⟨d, maxTex, up2⟩ texDims
        fs).2.1.atlasDims) ∧
    ((resizeLoopCompatibility logEnabled ⟨d, maxTex, up1⟩ texDims fs).2.2 =
      (resizeLoopCompatibility logEnabled ⟨d, maxTex, up2⟩ texDims fs).2.2)
    := by
  induction fs with
  | nil => intro maxTex d up1 up2 texDims; exact ⟨rfl, rfl, rfl⟩
  | cons head rest ih =>
    intro maxTex d up1 up2 texDims
    obtain ⟨patches, suggested⟩ := head
    simp only [resizeLoopCompatibility, Pipeline.get_max_texture_size,
      Pipeline.increase_cache_size, List.map_append, List.map_cons,
      List.map_map, List.map_nil, apply_ite (List.map Op.shape),
      Function.comp_def, Op.shape_atlasPatchCompatibility,
      Op.shape_warnResize, Op.shape_increaseCacheSize, Op.shape_resizeTexture]
    refine ⟨?_, (ih maxTex _ up1 up2 _).2.1, (ih maxTex _ up1 up2 _).2.2⟩
    rw [(ih maxTex _ up1 up2 _).1]

/-! Claim theorems. -/

/-- C1: whenever the processing step fails with TextureTooSmall carrying
suggested dimensions, the resize target is the clamp target, the maximum on
both axes, when the suggestion exceeds the maximum texture size on at least one
axis and the current cache texture dimensions are below the maximum on at least
one axis, and the suggestion unmodified otherwise; in particular for the
suggestion 5000 by 5000, maximum 4096 and current atlas 512 by 512 the target
is 4096 by 4096, while with current atlas already 4096 by 4096 the target is
the unmodified 5000 by 5000.  The last conjunct ties the computation to the
driver: in both branches of process_queued, the first resize of the trace grows
to exactly this target. -/
theorem C1_resize_target_clamp :
    (∀ (suggested : Dims) (maxImageSize : Nat) (texDims : Dims),
      ((suggested.1 > maxImageSize ∨ suggested.2 > maxImageSize) ∧
          (texDims.1 < maxImageSize ∨ texDims.2 < maxImageSize) →
        newDims suggested maxImageSize texDims =
          (maxImageSize, maxImageSize)) ∧
      (¬ ((suggested.1 > maxImageSize ∨ suggested.2 > maxImageSize) ∧
          (texDims.1 < maxImageSize ∨ texDims.2 < maxImageSize)) →
        newDims suggested maxImageSize texDims = suggested)) ∧
    newDims (5000, 5000) 4096 (512, 512) = (4096, 4096) ∧
    newDims (5000, 5000) 4096 (4096, 4096) = (5000, 5000) ∧
    (∀ (G V : Type) (conv : G → V) (logEnabled : Bool) (p : Pipeline V)
        (texDims : Dims) (patches : List CacheRect) (suggested : Dims)
        (rest : List (List CacheRect × Dims)) (fps : List CacheRect)
        (act : BrushAction G),
      (resizeEvents (processQueuedCompatibility conv logEnabled p texDims
            ⟨(patches, suggested) :: rest, fps, act⟩).1).head? =
          some (Op.increaseCacheSize
            (newDims suggested p.maxTextureSize texDims)) ∧
      (resizeEvents (processQueuedCore conv logEnabled p texDims
            ⟨(patches, suggested) :: rest, fps, act⟩).1).head? =
          some (Op.increaseCacheSize
            (newDims suggested p.maxTextureSize texDims))) := by
  refine ⟨fun suggested maxImageSize texDims => ⟨fun h => ?_, fun h => ?_⟩,
    by decide, by decide, fun G V conv logEnabled p texDims patches suggested
      rest fps act => ⟨?_, ?_⟩⟩
  · simp only [newDims, if_pos h]
  · simp only [newDims, if_neg h]
  · simp [processQueuedCompatibility_resizeEvents, resizeTargets, resizePairs,
      resizeOpPairs]
  · rw [← processQueued_eq]
    simp [processQueuedCompatibility_resizeEvents, resizeTargets, resizePairs,
      resizeOpPairs]

/-- Witness for C1: the clamp branch fires for the suggestion 6000 by 100 with
maximum 4096 and current atlas 100 by 100, and the pass-through branch fires
for the suggestion 10 by 10. -/
theorem C1_resize_target_clamp_witness :
    newDims (6000, 100) 4096 (100, 100) = (4096, 4096) ∧
    newDims (10, 10) 4096 (100, 100) = (10, 10) :=
  ⟨(C1_resize_target_clamp.1 (6000, 100) 4096 (100, 100)).1 (by decide),
    (C1_resize_target_clamp.1 (10, 10) 4096 (100, 100)).2 (by decide)⟩

/-- C10: the atlas patch callback of both variants narrows the patch
rectangle's minimum coordinates and its width and height to u16, that is
reduces them modulo 65536, before forwarding them to update_cache; whenever
the coordinates and extents are below 65536 the forwarded offset and size equal
the rectangle's values exactly, while any value of 65536 or more wraps to a
different forwarded value. -/
theorem C10_patch_u16_narrowing (V : Type) (r : CacheRect) :
    ((atlasPatchCompatibility r : Op V) =
        Op.updateCache (r.minX % 65536, r.minY % 65536)
          (r.width % 65536, r.height % 65536) ∧
      (atlasPatchCore r : Op V) =
        Op.updateCache (r.minX % 65536, r.minY % 65536)
          (r.width % 65536, r.height % 65536)) ∧
    (r.minX < 65536 → r.minY < 65536 → r.width < 65536 → r.height < 65536 →
      (atlasPatchCompatibility r : Op V) =
          Op.updateCache (r.minX, r.minY) (r.width, r.height) ∧
        (atlasPatchCore r : Op V) =
          Op.updateCache (r.minX, r.minY) (r.width, r.height)) ∧
    (65536 ≤ r.minX → r.minX % 65536 ≠ r.minX) ∧
    (65536 ≤ r.minY → r.minY % 65536 ≠ r.minY) ∧
    (65536 ≤ r.width → r.width % 65536 ≠ r.width) ∧
    (65536 ≤ r.height → r.height % 65536 ≠ r.height) := by
  refine ⟨⟨rfl, rfl⟩, fun h1 h2 h3 h4 => ?_, fun h => ?_, fun h => ?_,
    fun h => ?_, fun h => ?_⟩
  · constructor <;>
      simp [atlasPatchCompatibility, atlasPatchCore, Nat.mod_eq_of_lt, h1, h2,
        h3, h4]
  all_goals omega

/-- Witness for C10: an in-range rectangle is forwarded exactly, and a
coordinate of 70000 wraps. -/
theorem C10_patch_u16_narrowing_witness :
    (atlasPatchCompatibility ⟨10, 20, 40, 70⟩ : Op Unit) =
        Op.updateCache (10, 20) (30, 50) ∧
      ¬ (70000 % 65536 = 70000) :=
  ⟨((C10_patch_u16_narrowing Unit ⟨10, 20, 40, 70⟩).2.1 (by decide) (by decide)
      (by decide) (by decide)).1,
    (C10_patch_u16_narrowing Unit ⟨70000, 0, 70000, 0⟩).2.2.1 (by decide)⟩

/-- C4: in every draw cycle, a Draw action makes the driver forward exactly the
action's vertices, the converted glyphs, to the pipeline upload, while a ReDraw
action produces no upload operation and leaves the previously uploaded vertex
batch unchanged; in particular a draw cycle whose processing step answers
ReDraw, as the cache engine does on a second draw with no intervening queue,
performs zero vertex re-uploads.  Stated for both branches. -/
theorem C4_upload_forwarding :
    ∀ (G V : Type) (conv : G → V) (logEnabled : Bool) (p : Pipeline V)
      (texDims : Dims) (failures : List (List CacheRect × Dims))
      (fps : List CacheRect) (glyphs : List G),
    ((processQueuedCompatibility conv logEnabled p texDims
        ⟨failures, fps, BrushAction.draw glyphs⟩).1.filter Op.isUpload =
      [Op.upload (glyphs.map conv)]) ∧
    ((processQueuedCompatibility conv logEnabled p texDims
        ⟨failures, fps, BrushAction.draw glyphs⟩).2.1.uploaded =
      glyphs.map conv) ∧
    ((processQueuedCompatibility conv logEnabled p texDims
        ⟨failures, fps, BrushAction.reDraw⟩).1.filter Op.isUpload = []) ∧
    ((processQueuedCompatibility conv logEnabled p texDims
        ⟨failures, fps, BrushAction.reDraw⟩).2.1.uploaded = p.uploaded) ∧
    ((processQueuedCore conv logEnabled p texDims
        ⟨failures, fps, BrushAction.draw glyphs⟩).1.filter Op.isUpload =
      [Op.upload (glyphs.map conv)]) ∧
    ((processQueuedCore conv logEnabled p texDims
        ⟨failures, fps, BrushAction.draw glyphs⟩).2.1.uploaded =
      glyphs.map conv) ∧
    ((processQueuedCore conv logEnabled p texDims
        ⟨failures, fps, BrushAction.reDraw⟩).1.filter Op.isUpload = []) ∧
    ((processQueuedCore conv logEnabled p texDims
        ⟨failures, fps, BrushAction.reDraw⟩).2.1.uploaded = p.uploaded) := by
  intro G V conv logEnabled p texDims failures fps glyphs
  have hfil : (fps.map (atlasPatchCompatibility : CacheRect → Op V)).filter
      Op.isUpload = [] :=
    filter_map_eq_nil _ _ (fun _ => rfl) fps
  refine ⟨?_, ?_, ?_, ?_, ?_, ?_, ?_, ?_⟩ <;>
      try rw [← processQueued_eq]
  all_goals
    simp [processQueuedCompatibility, List.filter_append, hfil,
      resizeLoopCompatibility_filter_upload, List.filter_cons,
      Pipeline.upload, resizeLoopCompatibility_uploaded]

/-- C5: the resize retry loop has no iteration cap: for a failure list of any
length followed by a success, both branches of process_queued run to the
success; each failure performs exactly one resize consisting of a pipeline
grow immediately followed by an engine resize to the same computed target, the
targets chaining through the clamp computation; and the number of grow calls
equals the number of TextureTooSmall answers. -/
theorem C5_resize_retry_loop :
    ∀ (G V : Type) (conv : G → V) (logEnabled : Bool) (p : Pipeline V)
      (texDims : Dims) (failures : List (List CacheRect × Dims))
      (fps : List CacheRect) (act : BrushAction G),
    (resizeEvents (processQueuedCompatibility conv logEnabled p texDims
        ⟨failures, fps, act⟩).1 =
      resizeOpPairs (resizeTargets p.maxTextureSize texDims failures)) ∧
    ((processQueuedCompatibility conv logEnabled p texDims
        ⟨failures, fps, act⟩).1.countP Op.isIncrease = failures.length) ∧
    ((resizeTargets p.maxTextureSize texDims failures).length =
      failures.length) ∧
    (resizeEvents (processQueuedCore conv logEnabled p texDims
        ⟨failures, fps, act⟩).1 =
      resizeOpPairs (resizeTargets p.maxTextureSize texDims failures)) ∧
    ((processQueuedCore conv logEnabled p texDims
        ⟨failures, fps, act⟩).1.countP Op.isIncrease = failures.length) := by
  intro G V conv logEnabled p texDims failures fps act
  refine ⟨processQueuedCompatibility_resizeEvents conv logEnabled p texDims _,
    processQueuedCompatibility_countP_inc conv logEnabled p texDims _,
    by simp [resizeTargets, resizePairs_length], ?_, ?_⟩ <;>
      rw [← processQueued_eq]
  · exact processQueuedCompatibility_resizeEvents conv logEnabled p texDims _
  · exact processQueuedCompatibility_countP_inc conv logEnabled p texDims _

/-- C9: with warn-level logging enabled, every atlas resize of the driver emits
exactly one warning record carrying the engine texture dimensions before the
resize and the computed new dimensions, one warning per TextureTooSmall answer;
and the emission alters nothing else: erasing the warnings from the enabled
trace gives exactly the disabled trace, and the resulting pipeline state and
engine texture dimensions do not depend on whether logging is enabled.  Stated
for both branches. -/
theorem C9_resize_warning :
    ∀ (G V : Type) (conv : G → V) (p : Pipeline V) (texDims : Dims)
      (failures : List (List CacheRect × Dims)) (fps : List CacheRect)
      (act : BrushAction G),
    (((processQueuedCompatibility conv true p texDims
          ⟨failures, fps, act⟩).1).filterMap (fun o : Op V => o.warnEvent) =
      resizePairs p.maxTextureSize texDims failures) ∧
    ((resizePairs p.maxTextureSize texDims failures).length =
      failures.length) ∧
    (((processQueuedCompatibility conv true p texDims
          ⟨failures, fps, act⟩).1).filter (fun o : Op V => !o.isWarn) =
      (processQueuedCompatibility conv false p texDims
        ⟨failures, fps, act⟩).1) ∧
    ((processQueuedCompatibility conv true p texDims
        ⟨failures, fps, act⟩).2 =
      (processQueuedCompatibility conv false p texDims
        ⟨failures, fps, act⟩).2) ∧
    (((processQueuedCore conv true p texDims
          ⟨failures, fps, act⟩).1).filterMap (fun o : Op V => o.warnEvent) =
      resizePairs p.maxTextureSize texDims failures) ∧
    (((processQueuedCore conv true p texDims
          ⟨failures, fps, act⟩).1).filter (fun o : Op V => !o.isWarn) =
      (processQueuedCore conv false p texDims ⟨failures, fps, act⟩).1) ∧
    ((processQueuedCore conv true p texDims ⟨failures, fps, act⟩).2 =
      (processQueuedCore conv false p texDims ⟨failures, fps, act⟩).2) := by
  intro G V conv p texDims failures fps act
  have h1 := processQueuedCompatibility_warnEvents conv p texDims
    ⟨failures, fps, act⟩
  have h2 := processQueuedCompatibility_erase_warn conv true p texDims
    ⟨failures, fps, act⟩
  have h3 := processQueuedCompatibility_state_log conv true p texDims
    ⟨failures, fps, act⟩
  refine ⟨h1, resizePairs_length _ _ _, h2, h3, ?_, ?_, ?_⟩ <;>
      simp only [← processQueued_eq]
  · exact h1
  · exact h2
  · exact h3

theorem processQueuedCore_sync {G V : Type} (conv : G → V) (logEnabled : Bool)
    (p : Pipeline V) (texDims : Dims) (script : Script G)
    (h : p.atlasDims = texDims) :
    (processQueuedCore conv logEnabled p texDims script).2.1.atlasDims =
      (processQueuedCore conv logEnabled p texDims script).2.2 := by
  rw [← processQueued_eq]
  exact processQueuedCompatibility_sync conv logEnabled p texDims script h

theorem GlyphBrush.step_variant {S Fnt G V4 VI : Type} (conv4 : G → V4)
    (convI : G → VI) (logEnabled : Bool) (brush : GlyphBrush S Fnt G V4 VI)
    (c : Cmd S Fnt G) :
    (brush.step conv4 convI logEnabled c).variant = brush.variant := by
  cases brush <;> cases c <;> rfl

theorem GlyphBrush.runCmds_variant {S Fnt G V4 VI : Type} (conv4 : G → V4)
    (convI : G → VI) (logEnabled : Bool) (cmds : List (Cmd S Fnt G)) :
    ∀ brush : GlyphBrush S Fnt G V4 VI,
    (GlyphBrush.runCmds conv4 convI logEnabled brush cmds).variant =
      brush.variant := by
  induction cmds with
  | nil => intro brush; rfl
  | cons c cs ih =>
    intro brush
    rw [GlyphBrush.runCmds, ih, GlyphBrush.step_variant]

theorem GlyphBrush.step_sync {S Fnt G V4 VI : Type} (conv4 : G → V4)
    (convI : G → VI) (logEnabled : Bool) (brush : GlyphBrush S Fnt G V4 VI)
    (c : Cmd S Fnt G) (h : brush.atlasDims = brush.texture_dimensions) :
    (brush.step conv4 convI logEnabled c).atlasDims =
      (brush.step conv4 convI logEnabled c).texture_dimensions := by
  cases brush with
  | compatibility p e =>
    cases c <;>
      simp_all [GlyphBrush.step, GlyphBrush.queue,
        GlyphBrush.queue_custom_layout, GlyphBrush.queue_pre_positioned,
        GlyphBrush.keep_cached, GlyphBrush.keep_cached_custom_layout,
        GlyphBrush.add_font, GlyphBrush.draw_queued,
        GlyphBrush.draw_queued_with_transform,
        GlyphBrush.draw_queued_with_transform_and_scissoring,
        GlyphBrush.process_queued, GlyphBrush.atlasDims,
        GlyphBrush.texture_dimensions]
    all_goals exact processQueuedCompatibility_sync _ _ _ _ _ h
  | core p e =>
    cases c <;>
      simp_all [GlyphBrush.step, GlyphBrush.queue,
        GlyphBrush.queue_custom_layout, GlyphBrush.queue_pre_positioned,
        GlyphBrush.keep_cached, GlyphBrush.keep_cached_custom_layout,
        GlyphBrush.add_font, GlyphBrush.draw_queued,
        GlyphBrush.draw_queued_with_transform,
        GlyphBrush.draw_queued_with_transform_and_scissoring,
        GlyphBrush.process_queued, GlyphBrush.atlasDims,
        GlyphBrush.texture_dimensions]
    all_goals exact processQueuedCore_sync _ _ _ _ _ h

theorem GlyphBrush.runCmds_sync {S Fnt G V4 VI : Type} (conv4 : G → V4)
    (convI : G → VI) (logEnabled : Bool) (cmds : List (Cmd S Fnt G)) :
    ∀ brush : GlyphBrush S Fnt G V4 VI,
    brush.atlasDims = brush.texture_dimensions →
    (GlyphBrush.runCmds conv4 convI logEnabled brush cmds).atlasDims =
      (GlyphBrush.runCmds conv4 convI logEnabled brush cmds).texture_dimensions
    := by
  induction cmds with
  | nil => intro brush h; exact h
  | cons c cs ih =>
    intro brush h
    rw [GlyphBrush.runCmds]
    exact ih _ (GlyphBrush.step_sync conv4 convI logEnabled brush c h)

theorem GlyphBrush.new_sync (S Fnt G V4 VI : Type) (version : Version)
    (maxTex : Nat) (dims : Dims) (fonts : List Fnt) :
    (GlyphBrush.new S Fnt G V4 VI version maxTex dims fonts).atlasDims =
      (GlyphBrush.new S Fnt G V4 VI version maxTex dims fonts).texture_dimensions
    := by
  unfold GlyphBrush.new
  split <;> rfl

/-- C6: the cache sync driver logic is identical across the two backend
variants.  With the same vertex type and conversion plugged in, the
Compatibility and the Core transcriptions of process_queued are the same
function; and with the two variants' own conversions, the two branches issue
operation traces of identical shape, differing only in the vertex payload of
the upload, and compute identical pipeline atlas dimensions and engine texture
dimensions from identically configured pipelines. -/
theorem C6_branch_equivalence :
    (∀ (G V : Type) (conv : G → V) (logEnabled : Bool) (p : Pipeline V)
        (texDims : Dims) (script : Script G),
      processQueuedCompatibility conv logEnabled p texDims script =
        processQueuedCore conv logEnabled p texDims script) ∧
    (∀ (G V1 V2 : Type) (conv1 : G → V1) (conv2 : G → V2) (logEnabled : Bool)
        (dims : Dims) (maxTex : Nat) (up1 : List V1) (up2 : List V2)
        (texDims : Dims) (script : Script G),
      ((processQueuedCompatibility conv1 logEnabled ⟨dims, maxTex, up1⟩ texDims
            script).1.map Op.shape =
        (processQueuedCore conv2 logEnabled ⟨dims, maxTex, up2⟩ texDims
            script).1.map Op.shape) ∧
      ((processQueuedCompatibility conv1 logEnabled ⟨dims, maxTex, up1⟩ texDims
            script).2.1.atlasDims =
        (processQueuedCore conv2 logEnabled ⟨dims, maxTex, up2⟩ texDims
            script).2.1.atlasDims) ∧
      ((processQueuedCompatibility conv1 logEnabled ⟨dims, maxTex, up1⟩ texDims
            script).2.2 =
        (processQueuedCore conv2 logEnabled ⟨dims, maxTex, up2⟩ texDims
            script).2.2)) := by
  refine ⟨fun G V conv logEnabled p texDims script =>
    processQueued_eq conv logEnabled p texDims script, ?_⟩
  intro G V1 V2 conv1 conv2 logEnabled dims maxTex up1 up2 texDims script
  rw [← processQueued_eq]
  obtain ⟨fs, fps, act⟩ := script
  obtain ⟨h1, h2, h3⟩ :=
    resizeLoopCompatibility_shape logEnabled fs maxTex dims up1 up2 texDims
  cases act <;>
    simp [processQueuedCompatibility, List.map_append, List.map_map,
      Function.comp_def, Pipeline.upload, h1, h3,
      resizeLoopCompatibility_maxTex]
  · exact h2
  · exact h2

/-- C7: all three draw variants return the success value on every invocation
that runs to completion: the result component of each is always ok. -/
theorem C7_draw_returns_ok :
    ∀ (S Fnt G V4 VI : Type) (conv4 : G → V4) (convI : G → VI)
      (logEnabled : Bool) (script : Script G) (transform : List ℚ)
      (w h : Nat) (region : Region) (brush : GlyphBrush S Fnt G V4 VI),
    ((brush.draw_queued conv4 convI logEnabled script w h).2.2 =
      Except.ok ()) ∧
    ((brush.draw_queued_with_transform conv4 convI logEnabled script
        transform).2.2 = Except.ok ()) ∧
    ((brush.draw_queued_with_transform_and_scissoring conv4 convI logEnabled
        script transform region).2.2 = Except.ok ()) :=
  fun _ _ _ _ _ _ _ _ _ _ _ _ _ _ => ⟨rfl, rfl, rfl⟩

/-- C8: draw_queued with a target width and height behaves identically to
draw_queued_with_transform with the orthographic projection of those
dimensions, and that projection is exactly the row-major matrix with two over
the width, minus two over the height on the diagonal and the translation by
minus one and one in the last row. -/
theorem C8_default_projection :
    ∀ (S Fnt G V4 VI : Type) (conv4 : G → V4) (convI : G → VI)
      (logEnabled : Bool) (script : Script G) (w h : Nat)
      (brush : GlyphBrush S Fnt G V4 VI),
    brush.draw_queued conv4 convI logEnabled script w h =
      brush.draw_queued_with_transform conv4 convI logEnabled script
        (orthographic_projection w h) ∧
    orthographic_projection w h =
      [2 / (w : ℚ), 0, 0, 0,
       0, -2 / (h : ℚ), 0, 0,
       0, 0, 1, 0,
       -1, 1, 0, 1] :=
  fun _ _ _ _ _ _ _ _ _ _ _ _ => ⟨rfl, rfl⟩

/-- C2: for every sequence of public operations on a freshly constructed
GlyphBrush, queue and keep_cached and add_font calls and any of the draw
variants included, the active pipeline's atlas texture dimensions equal the
cache engine's texture dimensions afterwards: the pipeline is constructed with
the engine's initial dimensions and every resize passes the same pair to the
pipeline grow and the engine resize, so no operation breaks the equality. -/
theorem C2_atlas_dimension_sync :
    ∀ (S Fnt G V4 VI : Type) (conv4 : G → V4) (convI : G → VI)
      (logEnabled : Bool) (version : Version) (maxTex : Nat) (dims : Dims)
      (fonts : List Fnt) (cmds : List (Cmd S Fnt G)),
    (GlyphBrush.runCmds conv4 convI logEnabled
        (GlyphBrush.new S Fnt G V4 VI version maxTex dims fonts)
        cmds).atlasDims =
      (GlyphBrush.runCmds conv4 convI logEnabled
        (GlyphBrush.new S Fnt G V4 VI version maxTex dims fonts)
        cmds).texture_dimensions :=
  fun S Fnt G V4 VI conv4 convI logEnabled version maxTex dims fonts cmds =>
    GlyphBrush.runCmds_sync conv4 convI logEnabled cmds _
      (GlyphBrush.new_sync S Fnt G V4 VI version maxTex dims fonts)

/-- C3: at construction a context reporting major API version at least 3
selects the Core variant and any other major version the Compatibility
variant, with no error path; and no sequence of public operations changes the
active variant. -/
theorem C3_variant_selection :
    ∀ (S Fnt G V4 VI : Type) (conv4 : G → V4) (convI : G → VI)
      (logEnabled : Bool) (version : Version) (maxTex : Nat) (dims : Dims)
      (fonts : List Fnt),
    (3 ≤ version.major →
      (GlyphBrush.new S Fnt G V4 VI version maxTex dims fonts).variant =
        Variant.core) ∧
    (version.major < 3 →
      (GlyphBrush.new S Fnt G V4 VI version maxTex dims fonts).variant =
        Variant.compatibility) ∧
    (∀ (brush : GlyphBrush S Fnt G V4 VI) (cmds : List (Cmd S Fnt G)),
      (GlyphBrush.runCmds conv4 convI logEnabled brush cmds).variant =
        brush.variant) := by
  intro S Fnt G V4 VI conv4 convI logEnabled version maxTex dims fonts
  refine ⟨fun h => ?_, fun h => ?_,
    fun brush cmds => GlyphBrush.runCmds_variant conv4 convI logEnabled cmds
      brush⟩
  · unfold GlyphBrush.new
    rw [if_pos h]
    rfl
  · unfold GlyphBrush.new
    rw [if_neg (by omega)]
    rfl

/-- Witness for C3: a context of major version 3 yields the Core variant and a
context of major version 2 the Compatibility variant. -/
theorem C3_variant_selection_witness :
    (GlyphBrush.new Unit Unit Unit Unit Unit ⟨3, 0⟩ 4096 (256, 256)
        []).variant = Variant.core ∧
    (GlyphBrush.new Unit Unit Unit Unit Unit ⟨2, 0⟩ 4096 (256, 256)
        []).variant = Variant.compatibility :=
  ⟨(C3_variant_selection Unit Unit Unit Unit Unit (fun _ => ()) (fun _ => ())
      false ⟨3, 0⟩ 4096 (256, 256) []).1 (by decide),
    (C3_variant_selection Unit Unit Unit Unit Unit (fun _ => ()) (fun _ => ())
      false ⟨2, 0⟩ 4096 (256, 256) []).2.1 (by decide)⟩

end GlowGlyph
